import Mathlib

/-!
Verification of the aizen-website QA pipeline: the structural validator
(`validate.mjs`) and the browser QA prober (`qa-browser.mjs`).

Both tools share the same Reporter shape: three counters (`passed`,
`failed`, `warnings`), three recording functions (`pass`, `fail`, `warn`),
and a final summary branch deciding the exit code.  Check groups produce
outcome lists; the reporter folds over them.  DOM / regex extraction done
by the ambient libraries (cheerio, playwright) is modelled as pre-extracted
structured input; every decision the scripts make on those extracted values
is embedded below.
-/

set_option maxRecDepth 4096

/-- One reported check result: `pass(label)`, `fail(label, detail?)` or
`warn(label, detail?)`, exactly as the two scripts emit them. -/
inductive Outcome
  | pass (label : String)
  | fail (label : String) (detail : Option String)
  | warn (label : String) (detail : Option String)
deriving DecidableEq

/-- The counters `passed` / `failed` / `warnings` shared (textually
identically) by validate.mjs lines 21-23 and qa-browser lines 30-32. -/
structure Reporter where
  passed : Nat
  failed : Nat
  warnings : Nat
deriving DecidableEq

namespace Reporter

/-- `function pass(label)` : `passed++` (validate.mjs 25-28, qa-browser 34-37). -/
def pass (r : Reporter) (_label : String) : Reporter :=
  { r with passed := r.passed + 1 }

/-- `function fail(label, detail)` : `failed++` (validate.mjs 30-34, qa-browser 39-43). -/
def fail (r : Reporter) (_label : String) (_detail : Option String) : Reporter :=
  { r with failed := r.failed + 1 }

/-- `function warn(label, detail)` : `warnings++` (validate.mjs 36-40, qa-browser 45-49). -/
def warn (r : Reporter) (_label : String) (_detail : Option String) : Reporter :=
  { r with warnings := r.warnings + 1 }

end Reporter

/-- Recording one outcome mutates the counters through the matching function. -/
def record (r : Reporter) : Outcome → Reporter
  | Outcome.pass l => Reporter.pass r l
  | Outcome.fail l d => Reporter.fail r l d
  | Outcome.warn l d => Reporter.warn r l d

/-- Counters accumulated over a whole run, starting from zero. -/
def countersOf (l : List Outcome) : Reporter :=
  l.foldl record ⟨0, 0, 0⟩

/-- Final classification of a run, as printed by the summary blocks. -/
inductive Status
  | Success
  | SuccessWithWarnings
  | Failure
deriving DecidableEq

def isPassO : Outcome → Bool
  | Outcome.pass _ => true
  | _ => false

def isFailO : Outcome → Bool
  | Outcome.fail _ _ => true
  | _ => false

def isWarnO : Outcome → Bool
  | Outcome.warn _ _ => true
  | _ => false

namespace Validate

/-- Summary branch of validate.mjs lines 459-467. -/
def finalStatus (r : Reporter) : Status :=
  if r.failed > 0 then Status.Failure
  else if r.warnings > 0 then Status.SuccessWithWarnings
  else Status.Success

/-- `process.exit(1)` in the `failed > 0` branch, `process.exit(0)` otherwise. -/
def exitOf (r : Reporter) : Nat :=
  if r.failed > 0 then 1 else 0

end Validate

namespace QA

/-- Summary branch of qa-browser.mjs lines 383-392 (same shape as the validator). -/
def finalStatus (r : Reporter) : Status :=
  if r.failed > 0 then Status.Failure
  else if r.warnings > 0 then Status.SuccessWithWarnings
  else Status.Success

/-- Exit code of the summary branch of qa-browser.mjs. -/
def exitOf (r : Reporter) : Nat :=
  if r.failed > 0 then 1 else 0

end QA

lemma foldl_record_eq (l : List Outcome) (init : Reporter) :
    l.foldl record init =
      ⟨init.passed + l.countP (fun o => isPassO o),
       init.failed + l.countP (fun o => isFailO o),
       init.warnings + l.countP (fun o => isWarnO o)⟩ := by
  induction l generalizing init with
  | nil => simp [List.countP, List.countP.go]
  | cons o rest ih =>
    cases o <;>
      simp [List.foldl, ih, record, Reporter.pass, Reporter.fail, Reporter.warn,
        List.countP_cons, isPassO, isFailO, isWarnO] <;>
      omega

lemma countersOf_perm {l₁ l₂ : List Outcome} (h : l₁.Perm l₂) :
    countersOf l₁ = countersOf l₂ := by
  simp only [countersOf, foldl_record_eq]
  rw [h.countP_eq, h.countP_eq, h.countP_eq]

/-- C1: for both tools the final status is a pure function of the three
counters, independent of the order in which outcomes were recorded: a
positive fail counter classifies the run as `Failure` with exit code 1;
zero fails with positive warnings gives `SuccessWithWarnings` with exit
code 0; all-zero gives `Success` with exit code 0. -/
theorem summarize_pure_of_counters (l₁ l₂ : List Outcome) (h : l₁.Perm l₂)
    (r : Reporter) :
    countersOf l₁ = countersOf l₂
    ∧ (r.failed > 0 →
        Validate.finalStatus r = Status.Failure ∧ Validate.exitOf r = 1
        ∧ QA.finalStatus r = Status.Failure ∧ QA.exitOf r = 1)
    ∧ (r.failed = 0 → r.warnings > 0 →
        Validate.finalStatus r = Status.SuccessWithWarnings ∧ Validate.exitOf r = 0
        ∧ QA.finalStatus r = Status.SuccessWithWarnings ∧ QA.exitOf r = 0)
    ∧ (r.failed = 0 → r.warnings = 0 →
        Validate.finalStatus r = Status.Success ∧ Validate.exitOf r = 0
        ∧ QA.finalStatus r = Status.Success ∧ QA.exitOf r = 0) := by
  refine ⟨countersOf_perm h, ?_, ?_, ?_⟩
  · intro hf
    simp [Validate.finalStatus, Validate.exitOf, QA.finalStatus, QA.exitOf, hf]
  · intro hf hw
    simp [Validate.finalStatus, Validate.exitOf, QA.finalStatus, QA.exitOf, hf, hw]
  · intro hf hw
    simp [Validate.finalStatus, Validate.exitOf, QA.finalStatus, QA.exitOf, hf, hw]

/-- C1 witness: concrete permuted runs and a concrete failing counter state. -/
theorem summarize_pure_of_counters_witness :
    countersOf [Outcome.pass "a", Outcome.fail "b" none]
      = countersOf [Outcome.fail "b" none, Outcome.pass "a"]
    ∧ (Validate.finalStatus ⟨1, 1, 0⟩ = Status.Failure ∧ Validate.exitOf ⟨1, 1, 0⟩ = 1
        ∧ QA.finalStatus ⟨1, 1, 0⟩ = Status.Failure ∧ QA.exitOf ⟨1, 1, 0⟩ = 1) := by
  have h := summarize_pure_of_counters
    [Outcome.pass "a", Outcome.fail "b" none]
    [Outcome.fail "b" none, Outcome.pass "a"]
    (by decide) ⟨1, 1, 0⟩
  exact ⟨h.1, h.2.1 (by decide)⟩

/-- C4: each recording function increments exactly its own counter by 1 and
leaves the other two unchanged; consequently recording any outcome never
decrements a counter. -/
theorem reporter_counter_increments (r : Reporter) (lbl : String)
    (d : Option String) (o : Outcome) :
    Reporter.pass r lbl = ⟨r.passed + 1, r.failed, r.warnings⟩
    ∧ Reporter.fail r lbl d = ⟨r.passed, r.failed + 1, r.warnings⟩
    ∧ Reporter.warn r lbl d = ⟨r.passed, r.failed, r.warnings + 1⟩
    ∧ r.passed ≤ (record r o).passed
    ∧ r.failed ≤ (record r o).failed
    ∧ r.warnings ≤ (record r o).warnings := by
  refine ⟨rfl, rfl, rfl, ?_, ?_, ?_⟩ <;>
    cases o <;>
    simp [record, Reporter.pass, Reporter.fail, Reporter.warn]

/-! ## String utilities mirroring the JS string primitives used by validate.mjs -/

/-- Whether the first character list is a prefix of the second. -/
def prefixChars : List Char → List Char → Bool
  | [], _ => true
  | _ :: _, [] => false
  | a :: as, b :: bs => a = b && prefixChars as bs

/-- Whether the first character list occurs contiguously inside the second. -/
def infixChars (needle : List Char) : List Char → Bool
  | [] => prefixChars needle []
  | c :: rest => prefixChars needle (c :: rest) || infixChars needle rest

/-- JS `hay.includes(needle)` : substring containment. -/
def strIncludes (hay needle : String) : Bool :=
  infixChars needle.data hay.data

/-- JS `\s` character class (ASCII part, as used by the script's regexes). -/
def isWS (c : Char) : Bool :=
  c = ' ' || c = '\t' || c = '\n' || c = '\r' || c = '\x0b' || c = '\x0c'

/-- JS `s.startsWith(p)`. -/
def strStartsWith (s p : String) : Bool :=
  prefixChars p.data s.data

/-- JS `s.endsWith(p)`. -/
def strEndsWith (s p : String) : Bool :=
  prefixChars p.data.reverse s.data.reverse

/-- JS `s.trim()` : whitespace stripped from both ends. -/
def jsTrim (s : String) : String :=
  ⟨((s.data.dropWhile isWS).reverse.dropWhile isWS).reverse⟩

/-- JS `s.substring(0, n)`. -/
def strTake (s : String) (n : Nat) : String :=
  ⟨s.data.take n⟩

/-- JS `s.slice(n)` : drop the first n characters. -/
def strDrop (s : String) (n : Nat) : String :=
  ⟨s.data.drop n⟩

/-- JS `s.toLowerCase()` (ASCII case folding). -/
def strToLower (s : String) : String :=
  ⟨s.data.map Char.toLower⟩

/-- `check(label, condition, detail)` of validate.mjs lines 42-45:
pass on true, fail with the detail on false. -/
def check (label : String) (condition : Bool) (detail : Option String) : Outcome :=
  if condition then Outcome.pass label else Outcome.fail label detail

namespace Validate

/-! ## 7. Translations / embedded-script contract checks (validate.mjs 301-348) -/

/-- Field order of `TranslationSchema` (validate.mjs 83-98); each is an
`allJs.includes(name)` fact. -/
def translationNames : List String :=
  ["enSelectors", "enCards", "enTabs", "enFaq", "enSteps", "enHow", "enCta",
   "enFooter", "enForm", "enConsent", "enLegalLinks", "enLegalDisclaimer",
   "chatDataEN", "illustrationMap"]

/-- Violated translation fields, in schema order (zod reports one issue per
`z.literal(true)` field whose extracted fact is false). -/
def translationIssues (js : String) : List String :=
  translationNames.filter (fun n => !(strIncludes js n))

/-- Report of the `TranslationSchema.safeParse` block (validate.mjs 324-331). -/
def translationOutcomes (js : String) : List Outcome :=
  if (translationIssues js).isEmpty then
    [Outcome.pass "All 14 translation objects present"]
  else
    (translationIssues js).map
      (fun n => Outcome.fail ("Translation: " ++ n) (some (n ++ " not found in JS")))

/-- `hasLocalStorageLang` (validate.mjs 344): the concatenated script text
contains a `localStorage.getItem` call keyed by zenLang, in either quoting. -/
def hasLocalStorageLang (js : String) : Bool :=
  strIncludes js "localStorage.getItem(\x27zenLang\x27)"
    || strIncludes js "localStorage.getItem(\"zenLang\")"

/-- The persistence-absence check of validate.mjs line 345. -/
def noLocalStorageCheck (js : String) : Outcome :=
  check "No localStorage language auto-restore on load" (!hasLocalStorageLang js)
    (some "Page must always open in Portuguese")

/-- Condition of the default-language check (validate.mjs 348): the script
text contains `let currentLang = \x27pt\x27` in either quoting. -/
def defaultLangCond (js : String) : Bool :=
  strIncludes js "let currentLang = \x27pt\x27"
    || strIncludes js "let currentLang = \"pt\""

/-- The default-language check of validate.mjs line 348. -/
def defaultLangCheck (js : String) : Outcome :=
  check "Default currentLang is \"pt\"" (defaultLangCond js) none

/-- The six fixed function / helper existence checks (validate.mjs 334-341). -/
def fnCheckOutcomes (js : String) : List Outcome :=
  [check "initI18n() function exists" (strIncludes js "function initI18n()") none,
   check "switchLang() function exists" (strIncludes js "function switchLang(") none,
   check "translateIllustrations() function exists"
     (strIncludes js "function translateIllustrations(") none,
   check "restartChat() function exists" (strIncludes js "function restartChat()") none,
   check "chatAnimationTimeouts tracking array exists"
     (strIncludes js "chatAnimationTimeouts") none,
   check "trackTimeout() helper exists" (strIncludes js "function trackTimeout(") none]

/-- Whole group 7 in report order (validate.mjs 301-348). -/
def scriptOutcomes (js : String) : List Outcome :=
  translationOutcomes js ++ fnCheckOutcomes js
    ++ [noLocalStorageCheck js, defaultLangCheck js]

end Validate

/-- Whether an outcome is a pass. -/
def Outcome.isPass : Outcome → Bool
  | Outcome.pass _ => true
  | _ => false

/-- C6: over the concatenated inline-script text, the default-language check
passes iff the text contains the initialization `let currentLang = \x27pt\x27`
(single- or double-quoted), and the persistence check passes iff the text
does not contain a `localStorage.getItem` call keyed by zenLang (single- or
double-quoted) - the storage mechanism is asserted absent. -/
theorem script_lang_checks_iff (js : String) :
    ((Validate.defaultLangCheck js).isPass = true
      ↔ (strIncludes js "let currentLang = \x27pt\x27" = true
          ∨ strIncludes js "let currentLang = \"pt\"" = true))
    ∧ ((Validate.noLocalStorageCheck js).isPass = true
      ↔ ¬(strIncludes js "localStorage.getItem(\x27zenLang\x27)" = true
          ∨ strIncludes js "localStorage.getItem(\"zenLang\")" = true)) := by
  constructor
  · simp [Validate.defaultLangCheck, Validate.defaultLangCond, check, Outcome.isPass]
    by_cases h1 : strIncludes js "let currentLang = \x27pt\x27" <;>
      by_cases h2 : strIncludes js "let currentLang = \"pt\"" <;>
      simp [h1, h2]
  · simp [Validate.noLocalStorageCheck, Validate.hasLocalStorageLang, check, Outcome.isPass]
    by_cases h1 : strIncludes js "localStorage.getItem(\x27zenLang\x27)" <;>
      by_cases h2 : strIncludes js "localStorage.getItem(\"zenLang\")" <;>
      simp [h1, h2]

/-- C6 witness: a concrete script text that initializes the language and has
no zenLang persistence, evaluated through the theorem. -/
theorem script_lang_checks_iff_witness :
    (Validate.defaultLangCheck "let currentLang = \x27pt\x27;").isPass = true
    ∧ (Validate.noLocalStorageCheck "let currentLang = \x27pt\x27;").isPass = true := by
  have h := script_lang_checks_iff "let currentLang = \x27pt\x27;"
  exact ⟨h.1.mpr (Or.inl (by decide)), h.2.mpr (by decide)⟩

namespace Validate

/-! ## 8. Chat data structure (validate.mjs 354-372)

The two regexes
`/var chatData\s*=\s*\[([\s\S]*?)\];\s*\n/` and
`/(?:const|var|let)\s+chatDataEN\s*=\s*\[([\s\S]*?)\];\s*\n/`
are embedded as leftmost-match scanners with a lazy (shortest) body
capture; the conversation counter embeds `/\{\s*messages:/g`. -/

/-- The terminator `\];\s*\n` seen from just after the body: after `];`
some `\s` characters and then a newline (the newline itself is in `\s`,
so this is: a run of whitespace whose first non-skipped char is `\n`). -/
def wsThenNl : List Char → Bool
  | [] => false
  | c :: r => if c = '\n' then true else if isWS c then wsThenNl r else false

/-- Whether the terminator `\];\s*\n` matches at this position. -/
def termAt : List Char → Bool
  | ']' :: ';' :: r => wsThenNl r
  | _ => false

/-- Lazy capture `([\s\S]*?)` before the terminator: the shortest body such
that `\];\s*\n` follows; `none` when no terminator exists. -/
def captureBody : List Char → Option (List Char)
  | [] => none
  | c :: r =>
    if termAt (c :: r) then some []
    else (captureBody r).map (fun b => c :: b)

/-- Attempt of the PT pattern `var chatData\s*=\s*\[(body)\];\s*\n` anchored
at the head of the list; yields the captured body. -/
def ptMatchAt (cs : List Char) : Option (List Char) :=
  if prefixChars ("var chatData".data) cs then
    match (cs.drop 12).dropWhile isWS with
    | '=' :: r2 =>
      match r2.dropWhile isWS with
      | '[' :: r3 => captureBody r3
      | _ => none
    | _ => none
  else none

/-- `allJs.match(/var chatData\s*=\s*\[([\s\S]*?)\];\s*\n/)` : leftmost
occurrence, captured group. -/
def ptFind : List Char → Option (List Char)
  | [] => none
  | c :: r =>
    match ptMatchAt (c :: r) with
    | some body => some body
    | none => ptFind r

/-- Attempt of the EN pattern
`(?:const|var|let)\s+chatDataEN\s*=\s*\[(body)\];\s*\n` at the head. -/
def enMatchAt (cs : List Char) : Option (List Char) :=
  let after :=
    if prefixChars ("const".data) cs then some (cs.drop 5)
    else if prefixChars ("var".data) cs then some (cs.drop 3)
    else if prefixChars ("let".data) cs then some (cs.drop 3)
    else none
  match after with
  | none => none
  | some r0 =>
    match r0 with
    | [] => none
    | c :: r1 =>
      if isWS c then
        let r2 := r1.dropWhile isWS
        if prefixChars ("chatDataEN".data) r2 then
          match (r2.drop 10).dropWhile isWS with
          | '=' :: r3 =>
            match r3.dropWhile isWS with
            | '[' :: r4 => captureBody r4
            | _ => none
          | _ => none
        else none
      else none

/-- Leftmost EN match over the concatenated script text. -/
def enFind : List Char → Option (List Char)
  | [] => none
  | c :: r =>
    match enMatchAt (c :: r) with
    | some body => some body
    | none => enFind r

/-- Whether `\{\s*messages:` matches at this position. -/
def markerAt : List Char → Bool
  | '\x7b' :: rest => prefixChars ("messages:".data) (rest.dropWhile isWS)
  | _ => false

/-- `(body.match(/\{\s*messages:/g) || []).length` : number of
non-overlapping occurrences of a brace, optional whitespace, `messages:`.
A match holds exactly one brace, at its start, so two matches can never
overlap and counting the match-start positions yields the same number the
JS global regex reports. -/
def countMarkers : List Char → Nat
  | [] => 0
  | c :: rest => (if markerAt (c :: rest) then 1 else 0) + countMarkers rest

/-- PT half of group 8 (validate.mjs 357-363). -/
def ptPart (cs : List Char) : List Outcome :=
  match ptFind cs with
  | some body =>
    [check "PT chat data has 4 conversations" (countMarkers body = 4)
      (some ("Found " ++ toString (countMarkers body)))]
  | none => [Outcome.fail "PT chatData not found" none]

/-- EN half of group 8 (validate.mjs 366-372). -/
def enPart (cs : List Char) : List Outcome :=
  match enFind cs with
  | some body =>
    [check "EN chat data has 4 conversations" (countMarkers body = 4)
      (some ("Found " ++ toString (countMarkers body)))]
  | none => [Outcome.fail "EN chatDataEN not found" none]

/-- Whole group 8 in report order. -/
def chatOutcomes (js : String) : List Outcome :=
  ptPart js.data ++ enPart js.data

end Validate

/-- C7: for each language variant independently, a missing array-literal
assignment yields exactly one Fail; a found one yields a Pass iff the count
of conversation markers inside the captured array body is exactly 4, and
otherwise exactly one Fail reporting the count found; each variant's
outcome is a function of its own match alone. -/
theorem chat_data_variant_spec (js : String) (body : List Char) :
    Validate.chatOutcomes js = Validate.ptPart js.data ++ Validate.enPart js.data
    ∧ (Validate.ptFind js.data = none →
        Validate.ptPart js.data = [Outcome.fail "PT chatData not found" none])
    ∧ (Validate.ptFind js.data = some body → Validate.countMarkers body = 4 →
        Validate.ptPart js.data = [Outcome.pass "PT chat data has 4 conversations"])
    ∧ (Validate.ptFind js.data = some body → Validate.countMarkers body ≠ 4 →
        Validate.ptPart js.data = [Outcome.fail "PT chat data has 4 conversations"
          (some ("Found " ++ toString (Validate.countMarkers body)))])
    ∧ (Validate.enFind js.data = none →
        Validate.enPart js.data = [Outcome.fail "EN chatDataEN not found" none])
    ∧ (Validate.enFind js.data = some body → Validate.countMarkers body = 4 →
        Validate.enPart js.data = [Outcome.pass "EN chat data has 4 conversations"])
    ∧ (Validate.enFind js.data = some body → Validate.countMarkers body ≠ 4 →
        Validate.enPart js.data = [Outcome.fail "EN chat data has 4 conversations"
          (some ("Found " ++ toString (Validate.countMarkers body)))])
    ∧ (∀ cs cs' : List Char, Validate.ptFind cs = Validate.ptFind cs' →
        Validate.ptPart cs = Validate.ptPart cs')
    ∧ (∀ cs cs' : List Char, Validate.enFind cs = Validate.enFind cs' →
        Validate.enPart cs = Validate.enPart cs') := by
  refine ⟨rfl, ?_, ?_, ?_, ?_, ?_, ?_, ?_, ?_⟩
  · intro h
    simp [Validate.ptPart, h]
  · intro h h4
    simp [Validate.ptPart, h, h4, check]
  · intro h h4
    simp [Validate.ptPart, h, h4, check]
  · intro h
    simp [Validate.enPart, h]
  · intro h h4
    simp [Validate.enPart, h, h4, check]
  · intro h h4
    simp [Validate.enPart, h, h4, check]
  · intro cs cs' h
    simp [Validate.ptPart, h]
  · intro cs cs' h
    simp [Validate.enPart, h]

/-- Concrete sample of the concatenated inline-script text: a PT array with
4 conversation objects and an EN array with only 1. -/
def demoChatJs : String :=
  "var chatData = [\x7bmessages: []\x7d,\x7bmessages: []\x7d,\x7bmessages: []\x7d,\x7bmessages: []\x7d];\nvar chatDataEN = [\x7bmessages: []\x7d];\n"

/-- The PT body the lazy capture extracts from `demoChatJs`. -/
def demoPtBody : List Char :=
  ("\x7bmessages: []\x7d,\x7bmessages: []\x7d,\x7bmessages: []\x7d,\x7bmessages: []\x7d").data

/-- C7 witness: the PT variant of the sample is found, counts 4
conversations and passes. -/
theorem chat_data_variant_spec_witness :
    Validate.ptFind demoChatJs.data = some demoPtBody
    ∧ Validate.countMarkers demoPtBody = 4
    ∧ Validate.ptPart demoChatJs.data
        = [Outcome.pass "PT chat data has 4 conversations"] := by
  have hfind : Validate.ptFind demoChatJs.data = some demoPtBody := by decide
  have hcount : Validate.countMarkers demoPtBody = 4 := by decide
  exact ⟨hfind, hcount,
    (chat_data_variant_spec demoChatJs demoPtBody).2.2.1 hfind hcount⟩

namespace QA

/-! ## Behavioral prober control flow (qa-browser.mjs 51-393)

Playwright's awaited operations (`page.goto`, `page.evaluate`) are modelled
as `Except String` results: `.error e` is a rejected promise (a thrown
exception with message `e`).  The page-load loop (lines 62-82) wraps its
probing in `try/catch`; the responsive-layout loop (lines 90-145) and every
later group have no `try/catch`, so a thrown error propagates out of the
group (skipping that group's `context.close()`), aborts the remaining
groups and reaches the top-level `run().catch` (lines 395-398), which
exits with code 1. -/

/-- One entry of `PAGES` (qa-browser.mjs 24-28). -/
structure PageRoute where
  name : String
  path : String
deriving DecidableEq

/-- The fixed route list `PAGES`. -/
def PAGES : List PageRoute :=
  [⟨"Home", "/"⟩, ⟨"Privacy Policy", "/privacidade/"⟩,
   ⟨"Privacy PDF", "/legal/politica-privacidade.html"⟩]

/-- One entry of `VIEWPORTS` (qa-browser.mjs 17-22). -/
structure Viewport where
  name : String
  width : Nat
  height : Nat
deriving DecidableEq

/-- The fixed viewport list `VIEWPORTS`. -/
def VIEWPORTS : List Viewport :=
  [⟨"Mobile (iPhone 14)", 390, 844⟩, ⟨"Tablet (iPad)", 768, 1024⟩,
   ⟨"Desktop", 1280, 800⟩, ⟨"Wide Desktop", 1920, 1080⟩]

/-- Runtime behaviour of one page-load probe: the navigation result
(`response?.status()`, where `none` is a null response) or a thrown error,
and the collected `pageerror` messages. -/
structure RouteBehavior where
  goto : Except String (Option Nat)
  pageErrors : List String

/-- `HTTP ${status}` where a missing response prints `undefined`. -/
def statusStr : Option Nat → String
  | some n => toString n
  | none => "undefined"

/-- One iteration of the page-load loop (qa-browser.mjs 62-82): the `try`
covers navigation and both checks, the `catch` converts a thrown error into
one Fail, and `context.close()` runs after the try/catch either way.
Returns the recorded outcomes and whether the context was closed. -/
def pageLoadRoute (pg : PageRoute) (b : RouteBehavior) : List Outcome × Bool :=
  match b.goto with
  | Except.error e => ([Outcome.fail (pg.name ++ " load") (some e)], true)
  | Except.ok st =>
    let o1 :=
      if st = some 200 then
        Outcome.pass (pg.name ++ " loads (HTTP " ++ statusStr st ++ ")")
      else Outcome.fail (pg.name ++ " load") (some ("HTTP " ++ statusStr st))
    let o2 :=
      if b.pageErrors.isEmpty then [Outcome.pass (pg.name ++ " - no JS errors")]
      else b.pageErrors.map (fun e => Outcome.fail (pg.name ++ " JS error") (some e))
    (o1 :: o2, true)

/-- Result of the `page.evaluate` probing the phone mockup (lines 116-127). -/
structure PhoneCheck where
  found : Bool
  display : String
  width : Nat
  height : Nat
deriving DecidableEq

/-- Runtime behaviour of one responsive-layout iteration: each awaited
operation either yields its value or throws. -/
structure LayoutBehavior where
  goto : Except String Unit
  overflow : Except String (Nat × Nat)
  nav : Except String Bool
  phone : Except String PhoneCheck
  footer : Except String Bool

/-- One iteration of the responsive-layout loop (qa-browser.mjs 90-145).
There is no `try/catch`: a rejected await aborts the iteration at that
point.  Returns the outcomes recorded before the abort, the escaping error
(if any), and whether `context.close()` (line 144) was reached. -/
def layoutViewport (vp : Viewport) (b : LayoutBehavior) :
    List Outcome × Option String × Bool :=
  match b.goto with
  | Except.error e => ([], some e, false)
  | Except.ok _ =>
    match b.overflow with
    | Except.error e => ([], some e, false)
    | Except.ok (bw, vw) =>
      let o1 :=
        if bw ≤ vw then
          Outcome.pass (vp.name ++ " (" ++ toString vp.width
            ++ "px) - no horizontal overflow")
        else
          Outcome.fail (vp.name ++ " (" ++ toString vp.width
              ++ "px) - horizontal overflow")
            (some ("body=" ++ toString bw ++ "px > viewport=" ++ toString vw ++ "px"))
      match b.nav with
      | Except.error e => ([o1], some e, false)
      | Except.ok nv =>
        let o2 :=
          if nv then Outcome.pass (vp.name ++ " - nav visible")
          else Outcome.fail (vp.name ++ " - nav not visible") none
        match b.phone with
        | Except.error e => ([o1, o2], some e, false)
        | Except.ok pc =>
          let o3 :=
            if pc.found && pc.display != "none" && pc.width > 0 then
              Outcome.pass (vp.name ++ " - phone mockup visible ("
                ++ toString pc.width ++ "x" ++ toString pc.height ++ ")")
            else Outcome.fail (vp.name ++ " - phone mockup hidden or collapsed") none
          match b.footer with
          | Except.error e => ([o1, o2, o3], some e, false)
          | Except.ok fv =>
            let o4 :=
              if fv then Outcome.pass (vp.name ++ " - footer accessible")
              else Outcome.fail (vp.name ++ " - footer not accessible") none
            ([o1, o2, o3, o4], none, true)

/-- The responsive-layout loop over the viewports: the first escaping error
aborts the loop (and everything after it in `run()`). -/
def layoutAll : List (Viewport × LayoutBehavior) → List Outcome × Option String
  | [] => ([], none)
  | (vp, b) :: rest =>
    match layoutViewport vp b with
    | (outs, some e, _) => (outs, some e)
    | (outs, none, _) =>
      let r := layoutAll rest
      (outs ++ r.1, r.2)

/-- Outcomes of the page-load group over all routes (never throws). -/
def pageLoads (rbs : List RouteBehavior) : List Outcome :=
  ((PAGES.zip rbs).map (fun p => (pageLoadRoute p.1 p.2).1)).flatten

/-- The whole `run()` sequencing as far as the claim needs it: the
page-load group, then the responsive-layout group, then the remaining
groups (images, i18n, animation, interaction, performance), abstracted as
the outcome list `rest` they would record.  An error escaping the layout
group aborts the run before `rest`. -/
def qaRun (rbs : List RouteBehavior) (lbs : List LayoutBehavior)
    (rest : List Outcome) : List Outcome × Option String :=
  let lo := pageLoads rbs
  match layoutAll (VIEWPORTS.zip lbs) with
  | (ls, some e) => (lo ++ ls, some e)
  | (ls, none) => (lo ++ ls ++ rest, none)

/-- Exit code of the whole prober process: the top-level `run().catch`
(lines 395-398) exits 1 on an escaped error, otherwise the summary branch
decides. -/
def exitSummary (res : List Outcome × Option String) : Nat :=
  match res.2 with
  | some _ => 1
  | none => QA.exitOf (countersOf res.1)

/-- A route whose navigation succeeds with HTTP 200 and no page errors. -/
def okRoute : RouteBehavior := ⟨Except.ok (some 200), []⟩

/-- A layout iteration whose navigation throws (e.g. a navigation timeout);
all later probes would have succeeded. -/
def timeoutLayout : LayoutBehavior :=
  ⟨Except.error "page.goto: Timeout 15000ms exceeded", Except.ok (390, 390),
   Except.ok true, Except.ok ⟨true, "flex", 200, 400⟩, Except.ok true⟩

/-- A layout iteration with no thrown errors and all checks passing. -/
def okLayout : LayoutBehavior :=
  ⟨Except.ok (), Except.ok (390, 390), Except.ok true,
   Except.ok ⟨true, "flex", 200, 400⟩, Except.ok true⟩

end QA

/-- C2 counterexample: in the responsive-layout check group a thrown
navigation error is NOT caught at the group's boundary (it escapes instead
of becoming a Fail outcome), the group's context is NOT closed, and the
subsequent check groups do NOT run - the whole run aborts through the
fatal path with exit code 1. -/
theorem qa_layout_group_escape_cex :
    (QA.layoutViewport ⟨"Mobile (iPhone 14)", 390, 844⟩ QA.timeoutLayout).1 = []
    ∧ (QA.layoutViewport ⟨"Mobile (iPhone 14)", 390, 844⟩ QA.timeoutLayout).2.1
        = some "page.goto: Timeout 15000ms exceeded"
    ∧ (QA.layoutViewport ⟨"Mobile (iPhone 14)", 390, 844⟩ QA.timeoutLayout).2.2 = false
    ∧ (QA.qaRun [QA.okRoute, QA.okRoute, QA.okRoute]
        [QA.timeoutLayout, QA.okLayout, QA.okLayout, QA.okLayout]
        [Outcome.pass "All images loaded after full scroll"]).2
        = some "page.goto: Timeout 15000ms exceeded"
    ∧ ¬(Outcome.pass "All images loaded after full scroll"
        ∈ (QA.qaRun [QA.okRoute, QA.okRoute, QA.okRoute]
            [QA.timeoutLayout, QA.okLayout, QA.okLayout, QA.okLayout]
            [Outcome.pass "All images loaded after full scroll"]).1)
    ∧ QA.exitSummary (QA.qaRun [QA.okRoute, QA.okRoute, QA.okRoute]
        [QA.timeoutLayout, QA.okLayout, QA.okLayout, QA.okLayout]
        [Outcome.pass "All images loaded after full scroll"]) = 1 := by
  refine ⟨rfl, rfl, rfl, rfl, ?_, rfl⟩
  decide

/-- C2 amended: only the page-load check group is fault-isolated - a thrown
error during a route's probing is caught at that route's boundary,
converted into one Fail, and the context is still closed; in the
responsive-layout group (and the groups after it) a thrown error escapes
the group without closing its context and aborts every subsequent check
group, terminating the run through the fatal handler with exit code 1. -/
theorem qa_fault_isolation_amended (pg : QA.PageRoute) (b : QA.RouteBehavior)
    (vp : QA.Viewport) (lb : QA.LayoutBehavior) (e : String)
    (rbs : List QA.RouteBehavior) (lbs : List QA.LayoutBehavior)
    (rest : List Outcome) :
    (QA.pageLoadRoute pg b).2 = true
    ∧ (b.goto = Except.error e →
        (QA.pageLoadRoute pg b).1 = [Outcome.fail (pg.name ++ " load") (some e)])
    ∧ (lb.goto = Except.error e →
        QA.layoutViewport vp lb = ([], some e, false))
    ∧ (lb.goto = Except.error e →
        QA.qaRun rbs (lb :: lbs) rest = (QA.pageLoads rbs, some e)
        ∧ QA.exitSummary (QA.qaRun rbs (lb :: lbs) rest) = 1) := by
  refine ⟨?_, ?_, ?_, ?_⟩
  · unfold QA.pageLoadRoute
    match h : b.goto with
    | Except.error e => simp
    | Except.ok st => simp
  · intro h
    unfold QA.pageLoadRoute
    rw [h]
  · intro h
    unfold QA.layoutViewport
    rw [h]
  · intro h
    have hv : QA.layoutViewport ⟨"Mobile (iPhone 14)", 390, 844⟩ lb = ([], some e, false) := by
      unfold QA.layoutViewport
      rw [h]
    constructor
    · unfold QA.qaRun QA.VIEWPORTS
      simp [List.zip, List.zipWith, QA.layoutAll, hv]
    · unfold QA.exitSummary QA.qaRun QA.VIEWPORTS
      simp [List.zip, List.zipWith, QA.layoutAll, hv]

/-- C2 witness for the amended theorem: concrete behaviours exercising both
halves - a caught page-load error and an escaping layout error. -/
theorem qa_fault_isolation_amended_witness :
    (QA.pageLoadRoute ⟨"Home", "/"⟩
      ⟨Except.error "page.goto: Timeout 15000ms exceeded", []⟩).1
      = [Outcome.fail "Home load" (some "page.goto: Timeout 15000ms exceeded")]
    ∧ (QA.pageLoadRoute ⟨"Home", "/"⟩
        ⟨Except.error "page.goto: Timeout 15000ms exceeded", []⟩).2 = true
    ∧ QA.layoutViewport ⟨"Mobile (iPhone 14)", 390, 844⟩ QA.timeoutLayout
        = ([], some "page.goto: Timeout 15000ms exceeded", false) := by
  have h := qa_fault_isolation_amended ⟨"Home", "/"⟩
    ⟨Except.error "page.goto: Timeout 15000ms exceeded", []⟩
    ⟨"Mobile (iPhone 14)", 390, 844⟩ QA.timeoutLayout
    "page.goto: Timeout 15000ms exceeded" [] [] []
  exact ⟨h.2.1 rfl, h.1, h.2.2.1 rfl⟩

namespace Validate

/-! ## Static document model for validate.mjs

cheerio selector extraction is modelled as pre-extracted structured data;
every `|| ''`, filter, count, comparison and report decision of
validate.mjs is embedded. -/

/-- Raw meta-tag attribute lookups (validate.mjs 106-117): each
`$(sel).attr(name)` / `$("title").text()` is `none` when the element or
attribute is absent. -/
structure MetaSource where
  charset : Option String
  viewport : Option String
  title : Option String
  description : Option String
  ogTitle : Option String
  ogDescription : Option String
  ogType : Option String
  ogLocale : Option String
  ogImage : Option String
  lang : Option String
deriving DecidableEq

/-- The `metaData` object after the `|| ''` defaults. -/
structure MetaValues where
  charset : String
  viewport : String
  title : String
  description : String
  ogTitle : String
  ogDescription : String
  ogType : String
  ogLocale : String
  ogImage : String
  lang : String
deriving DecidableEq

/-- Building `metaData` (validate.mjs 106-117): every absent lookup
defaults to the empty string, so extraction is total. -/
def extractMeta (m : MetaSource) : MetaValues :=
  ⟨m.charset.getD "", m.viewport.getD "", m.title.getD "", m.description.getD "",
   m.ogTitle.getD "", m.ogDescription.getD "", m.ogType.getD "", m.ogLocale.getD "",
   m.ogImage.getD "", m.lang.getD ""⟩

/-- Violation predicate of `charset: z.literal("UTF-8")`. -/
def vCharset (v : MetaValues) : Bool := v.charset != "UTF-8"

/-- Violation predicate of `viewport: z.string().includes("width=device-width")`. -/
def vViewport (v : MetaValues) : Bool := !strIncludes v.viewport "width=device-width"

/-- Violation predicate of `title: z.string().min(10)`. -/
def vTitle (v : MetaValues) : Bool := v.title.length < 10

/-- Violation predicate of `description: z.string().min(50)`. -/
def vDescription (v : MetaValues) : Bool := v.description.length < 50

/-- Violation predicate of `ogTitle: z.string().min(5)`. -/
def vOgTitle (v : MetaValues) : Bool := v.ogTitle.length < 5

/-- Violation predicate of `ogDescription: z.string().min(20)`. -/
def vOgDescription (v : MetaValues) : Bool := v.ogDescription.length < 20

/-- Violation predicate of `ogType: z.literal("website")`. -/
def vOgType (v : MetaValues) : Bool := v.ogType != "website"

/-- Violation predicate of `ogLocale: z.literal("pt_BR")`. -/
def vOgLocale (v : MetaValues) : Bool := v.ogLocale != "pt_BR"

/-- Violation predicate of `ogImage: z.string().min(1)`. -/
def vOgImage (v : MetaValues) : Bool := v.ogImage.length < 1

/-- Violation predicate of `lang: z.literal("pt-BR")`. -/
def vLang (v : MetaValues) : Bool := v.lang != "pt-BR"

/-- `MetaSchema` (validate.mjs 51-62) as a table of shape rules, in zod
field order: one issue per violated field. -/
def MetaRules : List (String × (MetaValues → Bool)) :=
  [("charset", vCharset), ("viewport", vViewport), ("title", vTitle),
   ("description", vDescription), ("ogTitle", vOgTitle),
   ("ogDescription", vOgDescription), ("ogType", vOgType),
   ("ogLocale", vOgLocale), ("ogImage", vOgImage), ("lang", vLang)]

/-- Field names of the violated meta rules, in schema order: the issue
paths of `MetaSchema.safeParse(metaData)`. -/
def metaIssues (v : MetaValues) : List String :=
  (MetaRules.filter (fun r => r.2 v)).map Prod.fst

/-- Report of the meta group (validate.mjs 119-126): an aggregate pass, or
one fail per violated field naming the field. -/
def metaOutcomes (v : MetaValues) : List Outcome :=
  if (metaIssues v).isEmpty then [Outcome.pass "All meta tags valid"]
  else (metaIssues v).map (fun f => Outcome.fail ("Meta: " ++ f) none)

/-- One agent card (a `.sobre-card` element): the raw `.text()` of its
label / title / body parts and its `.flex-wrap span` count. -/
structure Card where
  label : String
  title : String
  body : String
  tags : Nat
deriving DecidableEq

/-- `!label || !title || !body || tags < 3` on the trimmed texts
(validate.mjs 185-189). -/
def cardIncomplete (c : Card) : Bool :=
  jsTrim c.label = "" || jsTrim c.title = "" || jsTrim c.body = "" || c.tags < 3

/-- The per-card loop plus the following unconditional `pass` (validate.mjs
184-193): one fail per incomplete card, and then - regardless of whether
any card failed - the aggregate pass line. -/
def cardOutcomes (cards : List Card) : List Outcome :=
  (cards.enum.filterMap (fun p =>
    if cardIncomplete p.2 then
      some (Outcome.fail ("Agent card " ++ toString p.1 ++ " incomplete")
        (some ("label=\"" ++ (strTake (jsTrim p.2.label) 20) ++ "\" title=\""
          ++ (strTake (jsTrim p.2.title) 20) ++ "\" tags=" ++ toString p.2.tags)))
    else none))
  ++ [Outcome.pass "All agent cards have label, title, body, and tags"]

/-- One `img` element with the attributes the validator reads. -/
structure Img where
  src : Option String
  alt : Option String
  width : Option String
  height : Option String
  loading : Option String
deriving DecidableEq

/-- The whole extracted static document: one field per cheerio extraction
the validator performs. -/
structure Doc where
  html : String
  meta : MetaSource
  faviconCount : Nat
  hasHero : Bool
  hasSobre : Bool
  hasComoFunciona : Bool
  hasFaq : Bool
  hasPosicionamento : Bool
  hasBottomCta : Bool
  hasFooter : Bool
  cards : List Card
  agentTabs : Nat
  faqItems : Nat
  howItWorksSteps : Nat
  forms : Nat
  imgs : List Img
  linkHrefs : List String
  cssUrls : List String
  anchors : List String
  ids : List String
  scripts : List String
  footerText : String
  bodyText : String
  socialPlaceholderCount : Nat
deriving DecidableEq

/-- `scriptContent.join("\n")` over the inline script blocks
(validate.mjs 301-305). -/
def allJs (d : Doc) : String :=
  String.intercalate "\n" d.scripts

/-- The fixed bank-logo alt-text allow-list (validate.mjs 170). -/
def bankNames : List String :=
  ["Nubank", "Itaú", "Bradesco", "Santander", "Inter", "C6 Bank",
   "Mercado Pago", "BTG Pactual", "Caixa", "PicPay", "Neon", "Banco do Brasil"]

/-- `$("img[alt]").filter(alt in allow-list).length`. -/
def bankLogoCount (d : Doc) : Nat :=
  (d.imgs.filter (fun i =>
    match i.alt with
    | some a => bankNames.contains a
    | none => false)).length

/-- Missing-section field names in `SectionSchema` order (validate.mjs
64-72 and 137-145). -/
def sectionIssues (d : Doc) : List String :=
  (if d.hasHero then [] else ["hero"])
  ++ (if d.hasSobre then [] else ["sobre"])
  ++ (if d.hasComoFunciona then [] else ["comoFunciona"])
  ++ (if d.hasFaq then [] else ["faq"])
  ++ (if d.hasPosicionamento then [] else ["posicionamento"])
  ++ (if d.hasBottomCta then [] else ["bottomCta"])
  ++ (if d.hasFooter then [] else ["footer"])

/-- Report of the required-sections group (validate.mjs 147-154). -/
def sectionOutcomes (d : Doc) : List Outcome :=
  if (sectionIssues d).isEmpty then [Outcome.pass "All required sections present"]
  else (sectionIssues d).map (fun f => Outcome.fail ("Missing section: " ++ f) none)

/-- Violated `ContentSchema` minimum-count fields in schema order
(validate.mjs 74-81 and 162-172). -/
def contentIssues (d : Doc) : List String :=
  (if d.cards.length < 10 then ["agentCards"] else [])
  ++ (if d.agentTabs < 10 then ["agentTabs"] else [])
  ++ (if d.faqItems < 5 then ["faqItems"] else [])
  ++ (if d.howItWorksSteps < 3 then ["howItWorksSteps"] else [])
  ++ (if d.forms < 2 then ["forms"] else [])
  ++ (if bankLogoCount d < 10 then ["bankLogos"] else [])

/-- Report of the content-count block (validate.mjs 174-181). -/
def contentOutcomes (d : Doc) : List Outcome :=
  if (contentIssues d).isEmpty then
    [Outcome.pass ("Content structure valid (" ++ toString d.cards.length
      ++ " cards, " ++ toString d.faqItems ++ " FAQs, "
      ++ toString d.howItWorksSteps ++ " steps, "
      ++ toString (bankLogoCount d) ++ " banks)")]
  else (contentIssues d).map (fun f => Outcome.fail ("Content: " ++ f) none)

end Validate

namespace Validate

/-! ## 4. Asset files (validate.mjs 199-228) -/

/-- JS `Set.add`: insertion-ordered, keeps the first occurrence only. -/
def setAdd (l : List String) (x : String) : List String :=
  if l.contains x then l else l ++ [x]

/-- The candidate references in collection order: `img[src]` sources
(skipping remote and data URIs), `link[href]` targets (skipping remote and
fragment targets), then CSS `url(...)` occurrences from the raw text
(skipping remote and data URIs). -/
def assetCandidates (d : Doc) : List String :=
  (d.imgs.filterMap (fun i =>
    match i.src with
    | some s =>
      if s != "" && !strStartsWith s "http" && !strStartsWith s "data:" then some s
      else none
    | none => none))
  ++ (d.linkHrefs.filter (fun h =>
      h != "" && !strStartsWith h "http" && !strStartsWith h "#"))
  ++ (d.cssUrls.filter (fun u => !strStartsWith u "http" && !strStartsWith u "data:"))

/-- The `localAssets` Set (validate.mjs 201-216): candidates deduplicated
in insertion order. -/
def localAssets (d : Doc) : List String :=
  (assetCandidates d).foldl setAdd []

/-- `missingAssets` (validate.mjs 218-222): deduplicated assets whose path
does not exist on disk; the filesystem is the set of existing paths
relative to the document's directory. -/
def missingAssets (d : Doc) (fs : List String) : List String :=
  (localAssets d).filter (fun a => !fs.contains a)

/-- Report of the asset group (validate.mjs 224-228). -/
def assetOutcomes (d : Doc) (fs : List String) : List Outcome :=
  if missingAssets d fs = [] then
    [Outcome.pass ("All " ++ toString (localAssets d).length
      ++ " local assets exist on disk")]
  else (missingAssets d fs).map (fun a => Outcome.fail ("Missing asset: " ++ a) none)

/-! ## 5. Internal links (validate.mjs 234-258) -/

/-- `href.replace(/\/$/, "/index.html")` : a trailing slash gains the
directory index document. -/
def resolveRel (h : String) : String :=
  if strEndsWith h "/" then h ++ "index.html" else h

/-- Broken same-page anchors: `#target` (other than the bare `#`) with no
matching id in the document. -/
def brokenAnchors (d : Doc) : List String :=
  d.anchors.filter (fun h =>
    strStartsWith h "#" && h != "#" && !d.ids.contains (strDrop h 1))

/-- Broken relative links: non-anchor, non-absolute, non-mailto hrefs where
neither the slash-resolved path nor the literal path exists. -/
def brokenRelatives (d : Doc) (fs : List String) : List String :=
  d.anchors.filter (fun h =>
    !(strStartsWith h "#" && h != "#") && !strStartsWith h "http"
      && !strStartsWith h "mailto:" && h != "#"
      && !fs.contains (resolveRel h) && !fs.contains h)

/-- Report of the link group (validate.mjs 254-258). -/
def linkOutcomes (d : Doc) (fs : List String) : List Outcome :=
  (if brokenAnchors d = [] then [Outcome.pass "All anchor links resolve to existing IDs"]
   else (brokenAnchors d).map (fun l => Outcome.fail ("Broken anchor: " ++ l) none))
  ++ (if brokenRelatives d fs = [] then
        [Outcome.pass "All relative links point to existing files"]
      else (brokenRelatives d fs).map
        (fun l => Outcome.fail ("Broken relative link: " ++ l) none))

/-! ## 6. Image accessibility & performance (validate.mjs 264-293) -/

/-- `const src = $(el).attr("src") || ""`. -/
def srcOf (i : Img) : String := i.src.getD ""

/-- The early return (validate.mjs 275): only images with a non-data,
non-empty source are considered. -/
def considered (i : Img) : Bool :=
  !strStartsWith (srcOf i) "data:" && srcOf i != ""

/-- JS falsiness of an attribute value: absent or the empty string. -/
def attrFalsy : Option String → Bool
  | none => true
  | some s => s = ""

/-- Images pushed onto `imgIssues.missingAlt`: considered and
`alt === undefined || alt === null` (an empty alt string is acceptable). -/
def altOffenders (imgs : List Img) : List Img :=
  imgs.filter (fun i => considered i && i.alt.isNone)

/-- `src.replace(/.*\//, "")` : the text after the last slash (the greedy
`.*` eats through the final slash; with no slash nothing is replaced). -/
def basename (s : String) : String :=
  ⟨(s.data.reverse.takeWhile (fun c => c != '/')).reverse⟩

/-- The names reported under `Missing alt:`. -/
def missingAltList (imgs : List Img) : List String :=
  (altOffenders imgs).map (fun i => basename (srcOf i))

/-- Images pushed onto `imgIssues.lazyWithoutDimensions`: considered, lazy
loading, a falsy width or height, and not an `.svg` source. -/
def lazyOffenders (imgs : List Img) : List Img :=
  imgs.filter (fun i => considered i && i.loading == some "lazy"
    && (attrFalsy i.width || attrFalsy i.height) && !strEndsWith (srcOf i) ".svg")

/-- The names reported under `Lazy image without dimensions:`. -/
def lazyNoDimList (imgs : List Img) : List String :=
  (lazyOffenders imgs).map (fun i => basename (srcOf i))

/-- Detail attached to every lazy-without-dimensions failure. -/
def lazyDetail : String := "Browser may not load images in collapsed containers"

/-- Report of the image group (validate.mjs 289-293). -/
def imgOutcomes (imgs : List Img) : List Outcome :=
  (if (missingAltList imgs).isEmpty then [Outcome.pass "All images have alt attributes"]
   else (missingAltList imgs).map (fun i => Outcome.fail ("Missing alt: " ++ i) none))
  ++ (if (lazyNoDimList imgs).isEmpty then
        [Outcome.pass "All lazy-loaded images have width/height"]
      else (lazyNoDimList imgs).map
        (fun i => Outcome.fail ("Lazy image without dimensions: " ++ i) (some lazyDetail)))

/-! ## 9. Legal & compliance (validate.mjs 378-395) -/

/-- Report of the legal group: three link checks over the anchor hrefs and
four substring checks over footer / body text. -/
def legalOutcomes (d : Doc) : List Outcome :=
  [check "Privacy policy link exists"
     (d.anchors.any (fun h => strIncludes h "privacidade")) none,
   check "Data retention PDF linked"
     (d.anchors.any (fun h => strIncludes h "politica-retencao-dados")) none,
   check "Incident reporting PDF linked"
     (d.anchors.any (fun h => strIncludes h "politica-reporte-incidentes")) none,
   check "CNPJ present in footer" (strIncludes d.footerText "63.740.359/0001-15") none,
   check "Company name in footer" (strIncludes d.footerText "AIZEN TECNOLOGIA") none,
   check "Correspondente Bancário disclosure"
     (strIncludes d.footerText "Correspondente Bancário") none,
   check "Form consent text present"
     (strIncludes d.bodyText "concorda em receber mensagens") none]

/-! ## 10. Content quality (validate.mjs 401-430) -/

/-- Whether `/(?:TODO|FIXME|HACK|XXX)(?:\s|:)/i` matches at this position of
the lowercased text. -/
def todoAt (cs : List Char) : Bool :=
  let follow := fun (kw : String) =>
    prefixChars kw.data cs &&
      (match cs.drop kw.length with
       | [] => false
       | c :: _ => isWS c || c = ':')
  follow "todo" || follow "fixme" || follow "hack" || follow "xxx"

/-- Scan of the marker-comment regex over the lowercased raw document. -/
def hasTodosChars : List Char → Bool
  | [] => false
  | c :: rest => todoAt (c :: rest) || hasTodosChars rest

/-- Report of the content-quality group (validate.mjs 404-430). -/
def qualityOutcomes (d : Doc) : List Outcome :=
  [check "No references to old name \"Aleah\""
     (!strIncludes (strToLower d.html) "aleah") (some "Product was renamed to Zen"),
   (if hasTodosChars (strToLower d.html).data then
      Outcome.warn "Found TODO/FIXME/HACK comments in HTML" none
    else Outcome.pass "No TODO/FIXME/HACK comments"),
   (if d.bodyText.data.contains (Char.ofNat 0x2014) then
      Outcome.warn "Em dashes found in visible text (style guide prefers periods/commas)" none
    else Outcome.pass "No em dashes in visible text"),
   (if strIncludes d.html "5511999999999" then
      Outcome.warn "WhatsApp uses placeholder number (5511999999999)"
        (some "Replace before launch")
    else Outcome.pass "WhatsApp number is not a placeholder"),
   (if d.socialPlaceholderCount > 0 then
      Outcome.warn (toString d.socialPlaceholderCount
          ++ " placeholder social links (href=\"#\") in footer")
        (some "Add real social URLs before launch")
    else Outcome.pass "All footer links have real URLs")]

/-! ## 11. External dependencies (validate.mjs 436-449) -/

/-- The fixed CDN origin list `requiredCDNs`. -/
def requiredCDNs : List String :=
  ["cdn.tailwindcss.com", "fonts.googleapis.com",
   "cdnjs.cloudflare.com/ajax/libs/gsap", "unpkg.com/lucide", "iconify", "lenis"]

/-- Report of the CDN group: one check per required origin. -/
def cdnOutcomes (d : Doc) : List Outcome :=
  requiredCDNs.map (fun cdn =>
    check ("CDN loaded: " ++ cdn) (strIncludes d.html cdn) none)

/-- The full validator run (validate.mjs 17-449): all eleven check groups
in source order over one extracted document and one filesystem state. -/
def runValidator (d : Doc) (fs : List String) : List Outcome :=
  metaOutcomes (extractMeta d.meta)
  ++ [check "Favicon present" (d.faviconCount > 0) none]
  ++ sectionOutcomes d
  ++ contentOutcomes d
  ++ cardOutcomes d.cards
  ++ assetOutcomes d fs
  ++ linkOutcomes d fs
  ++ imgOutcomes d.imgs
  ++ scriptOutcomes (allJs d)
  ++ chatOutcomes (allJs d)
  ++ legalOutcomes d
  ++ qualityOutcomes d
  ++ cdnOutcomes d

/-- Exit code of a whole validator process run (validate.mjs 455-467). -/
def runExit (d : Doc) (fs : List String) : Nat :=
  exitOf (countersOf (runValidator d fs))

end Validate

/-- C3: the per-card completeness loop records one Fail per incomplete card
as claimed, but the aggregate `pass("All agent cards have label, title,
body, and tags")` on validate.mjs line 193 sits outside any guard: it is
recorded even when a card just failed, contradicting both the claim and the
printed message itself.  Evaluated at a one-card document whose card has an
empty label: the run records the per-card Fail AND the aggregate Pass. -/
theorem agent_card_aggregate_pass_bug :
    Validate.cardIncomplete ⟨"", "Card Title", "Body text", 3⟩ = true
    ∧ Validate.cardOutcomes [⟨"", "Card Title", "Body text", 3⟩]
        = [Outcome.fail "Agent card 0 incomplete"
            (some "label=\"\" title=\"Card Title\" tags=3"),
           Outcome.pass "All agent cards have label, title, body, and tags"] := by
  constructor
  · decide
  · decide

/-- C5: for every considered image (non-empty, non-data source): an absent
alt attribute is reported as a `Missing alt:` failure while an empty alt
contributes nothing; a lazy-loading image lacking a width or height
attribute is reported as a `Lazy image without dimensions:` failure unless
its source ends in `.svg`, in which case it contributes nothing. -/
theorem image_checks_spec (imgs : List Validate.Img) (i : Validate.Img)
    (hmem : i ∈ imgs) (hc : Validate.considered i = true) :
    (i.alt = none →
      Outcome.fail ("Missing alt: " ++ Validate.basename (Validate.srcOf i)) none
        ∈ Validate.imgOutcomes imgs)
    ∧ (i.alt = some "" → i ∉ Validate.altOffenders imgs)
    ∧ (i.loading = some "lazy" → i.width = none ∨ i.height = none →
        strEndsWith (Validate.srcOf i) ".svg" = false →
        Outcome.fail ("Lazy image without dimensions: "
            ++ Validate.basename (Validate.srcOf i)) (some Validate.lazyDetail)
          ∈ Validate.imgOutcomes imgs)
    ∧ (i.loading = some "lazy" → strEndsWith (Validate.srcOf i) ".svg" = true →
        i ∉ Validate.lazyOffenders imgs) := by
  refine ⟨?_, ?_, ?_, ?_⟩
  · intro halt
    have h1 : i ∈ Validate.altOffenders imgs :=
      List.mem_filter.mpr ⟨hmem, by simp [hc, halt]⟩
    have h2 : Validate.basename (Validate.srcOf i) ∈ Validate.missingAltList imgs :=
      List.mem_map_of_mem _ h1
    have h3 : Validate.missingAltList imgs ≠ [] := List.ne_nil_of_mem h2
    unfold Validate.imgOutcomes
    refine List.mem_append_left _ ?_
    rw [if_neg (by simpa [List.isEmpty_iff] using h3)]
    exact List.mem_map_of_mem _ h2
  · intro halt habs
    have h1 := (List.mem_filter.mp habs).2
    simp [halt] at h1
  · intro hlazy hwh hsvg
    have hdim : Validate.attrFalsy i.width || Validate.attrFalsy i.height := by
      rcases hwh with h | h <;> simp [h, Validate.attrFalsy]
    have h1 : i ∈ Validate.lazyOffenders imgs :=
      List.mem_filter.mpr ⟨hmem, by simp [hc, hlazy, hsvg, hdim]⟩
    have h2 : Validate.basename (Validate.srcOf i) ∈ Validate.lazyNoDimList imgs :=
      List.mem_map_of_mem _ h1
    have h3 : Validate.lazyNoDimList imgs ≠ [] := List.ne_nil_of_mem h2
    unfold Validate.imgOutcomes
    refine List.mem_append_right _ ?_
    rw [if_neg (by simpa [List.isEmpty_iff] using h3)]
    exact List.mem_map_of_mem _ h2
  · intro hlazy hsvg habs
    have h1 := (List.mem_filter.mp habs).2
    simp [hsvg] at h1

/-- A lazy-loading PNG image with no alt, no width and no height. -/
def demoImg : Validate.Img := ⟨some "img/hero.png", none, none, none, some "lazy"⟩

/-- C5 witness: the concrete offending image is inside the considered set
and both failures are reported for it. -/
theorem image_checks_spec_witness :
    demoImg ∈ [demoImg]
    ∧ Validate.considered demoImg = true
    ∧ Outcome.fail ("Missing alt: " ++ Validate.basename (Validate.srcOf demoImg)) none
        ∈ Validate.imgOutcomes [demoImg]
    ∧ Outcome.fail ("Lazy image without dimensions: "
          ++ Validate.basename (Validate.srcOf demoImg)) (some Validate.lazyDetail)
        ∈ Validate.imgOutcomes [demoImg] := by
  have h := image_checks_spec [demoImg] demoImg (by simp) (by decide)
  exact ⟨by simp, by decide, h.1 rfl, h.2.2.1 rfl (Or.inl rfl) (by decide)⟩

lemma setAdd_nodup (acc : List String) (x : String) (h : acc.Nodup) :
    (Validate.setAdd acc x).Nodup := by
  unfold Validate.setAdd
  by_cases hx : x ∈ acc
  · simp [hx, h]
  · simp [hx, List.nodup_append, h]

lemma foldl_setAdd_nodup (l : List String) (acc : List String) (h : acc.Nodup) :
    (l.foldl Validate.setAdd acc).Nodup := by
  induction l generalizing acc with
  | nil => simpa
  | cons a rest ih => exact ih _ (setAdd_nodup acc a h)

lemma string_append_cancel (s : String) {a b : String} (h : s ++ a = s ++ b) :
    a = b := by
  have hd := congrArg String.data h
  rw [String.data_append, String.data_append] at hd
  have hab := List.append_cancel_left hd
  cases a
  cases b
  exact congrArg String.mk hab

/-- C9: the collected local asset references are deduplicated (the JS `Set`)
before the existence check, so each distinct missing path occurs at most
once in `missingAssets` and at most one `Missing asset:` failure is
recorded for it, however many times the document references that path. -/
theorem asset_dedup_spec (d : Validate.Doc) (fs : List String) (p : String) :
    (Validate.localAssets d).Nodup
    ∧ (Validate.missingAssets d fs).count p ≤ 1
    ∧ (Validate.assetOutcomes d fs).countP
        (fun o => o = Outcome.fail ("Missing asset: " ++ p) none) ≤ 1 := by
  have hnd : (Validate.localAssets d).Nodup :=
    foldl_setAdd_nodup (Validate.assetCandidates d) [] List.nodup_nil
  have hmd : (Validate.missingAssets d fs).Nodup := hnd.filter _
  have hcount : (Validate.missingAssets d fs).count p ≤ 1 :=
    List.nodup_iff_count_le_one.mp hmd p
  refine ⟨hnd, hcount, ?_⟩
  unfold Validate.assetOutcomes
  by_cases hm : Validate.missingAssets d fs = []
  · simp [hm, List.countP_cons]
  · rw [if_neg hm, List.countP_map]
    have hle : (Validate.missingAssets d fs).countP
        ((fun o => decide (o = Outcome.fail ("Missing asset: " ++ p) none))
          ∘ (fun a => Outcome.fail ("Missing asset: " ++ a) none))
        ≤ (Validate.missingAssets d fs).countP (fun a => a == p) := by
      refine List.countP_mono_left ?_
      intro a _ ha
      simp only [Function.comp, decide_eq_true_eq, Outcome.fail.injEq] at ha
      simp [string_append_cancel _ ha.1]
    calc (Validate.missingAssets d fs).countP _ ≤ _ := hle
      _ = (Validate.missingAssets d fs).count p := (List.count_eq_countP _ _).symm
      _ ≤ 1 := hcount

lemma mem_metaIssues (v : Validate.MetaValues) (nm : String)
    (f : Validate.MetaValues → Bool)
    (hmem : (nm, f) ∈ Validate.MetaRules) (hv : f v = true) :
    nm ∈ Validate.metaIssues v := by
  unfold Validate.metaIssues
  exact List.mem_map_of_mem _ (List.mem_filter.mpr ⟨hmem, hv⟩)

lemma metaIssues_nodup (v : Validate.MetaValues) :
    (Validate.metaIssues v).Nodup := by
  have h1 : (Validate.MetaRules.filter (fun r => r.2 v)).Sublist Validate.MetaRules :=
    List.filter_sublist _
  have h2 : ((Validate.MetaRules.filter (fun r => r.2 v)).map Prod.fst).Sublist
      (Validate.MetaRules.map Prod.fst) := h1.map _
  have h3 : (Validate.MetaRules.map Prod.fst).Nodup := by
    simp [Validate.MetaRules]
  exact h3.sublist h2

/-- C10: meta-tag fact extraction is total - every absent element or
attribute defaults to the empty string - and for each of the ten fields the
empty string violates that field's shape rule, so the absence surfaces as
exactly one failure naming the field (the issue list holds no duplicates)
rather than as an exception. -/
theorem meta_extraction_total (m : Validate.MetaSource) :
    (m.charset = none → (Validate.extractMeta m).charset = ""
      ∧ "charset" ∈ Validate.metaIssues (Validate.extractMeta m))
    ∧ (m.viewport = none → (Validate.extractMeta m).viewport = ""
      ∧ "viewport" ∈ Validate.metaIssues (Validate.extractMeta m))
    ∧ (m.title = none → (Validate.extractMeta m).title = ""
      ∧ "title" ∈ Validate.metaIssues (Validate.extractMeta m))
    ∧ (m.description = none → (Validate.extractMeta m).description = ""
      ∧ "description" ∈ Validate.metaIssues (Validate.extractMeta m))
    ∧ (m.ogTitle = none → (Validate.extractMeta m).ogTitle = ""
      ∧ "ogTitle" ∈ Validate.metaIssues (Validate.extractMeta m))
    ∧ (m.ogDescription = none → (Validate.extractMeta m).ogDescription = ""
      ∧ "ogDescription" ∈ Validate.metaIssues (Validate.extractMeta m))
    ∧ (m.ogType = none → (Validate.extractMeta m).ogType = ""
      ∧ "ogType" ∈ Validate.metaIssues (Validate.extractMeta m))
    ∧ (m.ogLocale = none → (Validate.extractMeta m).ogLocale = ""
      ∧ "ogLocale" ∈ Validate.metaIssues (Validate.extractMeta m))
    ∧ (m.ogImage = none → (Validate.extractMeta m).ogImage = ""
      ∧ "ogImage" ∈ Validate.metaIssues (Validate.extractMeta m))
    ∧ (m.lang = none → (Validate.extractMeta m).lang = ""
      ∧ "lang" ∈ Validate.metaIssues (Validate.extractMeta m))
    ∧ (Validate.metaIssues (Validate.extractMeta m)).Nodup
    ∧ Validate.metaOutcomes (Validate.extractMeta m)
      = (if (Validate.metaIssues (Validate.extractMeta m)).isEmpty then
          [Outcome.pass "All meta tags valid"]
         else (Validate.metaIssues (Validate.extractMeta m)).map
           (fun f => Outcome.fail ("Meta: " ++ f) none)) := by
  refine ⟨?_, ?_, ?_, ?_, ?_, ?_, ?_, ?_, ?_, ?_, metaIssues_nodup _, rfl⟩
  · intro h
    refine ⟨by simp [Validate.extractMeta, h], ?_⟩
    refine mem_metaIssues _ _ Validate.vCharset (by simp [Validate.MetaRules]) ?_
    simp [Validate.vCharset, Validate.extractMeta, h]
  · intro h
    refine ⟨by simp [Validate.extractMeta, h], ?_⟩
    refine mem_metaIssues _ _ Validate.vViewport (by simp [Validate.MetaRules]) ?_
    simp only [Validate.vViewport, Validate.extractMeta, h, Option.getD]
    decide
  · intro h
    refine ⟨by simp [Validate.extractMeta, h], ?_⟩
    refine mem_metaIssues _ _ Validate.vTitle (by simp [Validate.MetaRules]) ?_
    simp only [Validate.vTitle, Validate.extractMeta, h, Option.getD]
    decide
  · intro h
    refine ⟨by simp [Validate.extractMeta, h], ?_⟩
    refine mem_metaIssues _ _ Validate.vDescription (by simp [Validate.MetaRules]) ?_
    simp only [Validate.vDescription, Validate.extractMeta, h, Option.getD]
    decide
  · intro h
    refine ⟨by simp [Validate.extractMeta, h], ?_⟩
    refine mem_metaIssues _ _ Validate.vOgTitle (by simp [Validate.MetaRules]) ?_
    simp only [Validate.vOgTitle, Validate.extractMeta, h, Option.getD]
    decide
  · intro h
    refine ⟨by simp [Validate.extractMeta, h], ?_⟩
    refine mem_metaIssues _ _ Validate.vOgDescription (by simp [Validate.MetaRules]) ?_
    simp only [Validate.vOgDescription, Validate.extractMeta, h, Option.getD]
    decide
  · intro h
    refine ⟨by simp [Validate.extractMeta, h], ?_⟩
    refine mem_metaIssues _ _ Validate.vOgType (by simp [Validate.MetaRules]) ?_
    simp [Validate.vOgType, Validate.extractMeta, h]
  · intro h
    refine ⟨by simp [Validate.extractMeta, h], ?_⟩
    refine mem_metaIssues _ _ Validate.vOgLocale (by simp [Validate.MetaRules]) ?_
    simp [Validate.vOgLocale, Validate.extractMeta, h]
  · intro h
    refine ⟨by simp [Validate.extractMeta, h], ?_⟩
    refine mem_metaIssues _ _ Validate.vOgImage (by simp [Validate.MetaRules]) ?_
    simp only [Validate.vOgImage, Validate.extractMeta, h, Option.getD]
    decide
  · intro h
    refine ⟨by simp [Validate.extractMeta, h], ?_⟩
    refine mem_metaIssues _ _ Validate.vLang (by simp [Validate.MetaRules]) ?_
    simp [Validate.vLang, Validate.extractMeta, h]

/-- A document whose meta elements are all absent. -/
def emptyMeta : Validate.MetaSource :=
  ⟨none, none, none, none, none, none, none, none, none, none⟩

/-- C10 witness: with every meta element absent, each extraction defaults
to the empty string and the charset and lang fields (for example) each
surface as one named failure. -/
theorem meta_extraction_total_witness :
    ((Validate.extractMeta emptyMeta).charset = ""
      ∧ "charset" ∈ Validate.metaIssues (Validate.extractMeta emptyMeta))
    ∧ ((Validate.extractMeta emptyMeta).lang = ""
      ∧ "lang" ∈ Validate.metaIssues (Validate.extractMeta emptyMeta))
    ∧ (Validate.metaIssues (Validate.extractMeta emptyMeta)).Nodup := by
  have h := meta_extraction_total emptyMeta
  exact ⟨h.1 rfl, h.2.2.2.2.2.2.2.2.2.1 rfl, h.2.2.2.2.2.2.2.2.2.2.1⟩

/-- C8: the structural validator is deterministic in its inputs - for one
fixed extracted document and one fixed filesystem state, two runs produce
the same outcome list in the same order, the same counters, and the same
exit code (the embedding of the whole run is a pure function of those two
inputs, there is no other input). -/
theorem validator_deterministic (d₁ d₂ : Validate.Doc) (fs₁ fs₂ : List String)
    (hd : d₁ = d₂) (hfs : fs₁ = fs₂) :
    Validate.runValidator d₁ fs₁ = Validate.runValidator d₂ fs₂
    ∧ countersOf (Validate.runValidator d₁ fs₁)
      = countersOf (Validate.runValidator d₂ fs₂)
    ∧ Validate.runExit d₁ fs₁ = Validate.runExit d₂ fs₂ := by
  subst hd
  subst hfs
  exact ⟨rfl, rfl, rfl⟩

/-- A concrete (empty) extracted document. -/
def demoDoc : Validate.Doc :=
  ⟨"", emptyMeta, 0, false, false, false, false, false, false, false, [], 0, 0, 0, 0,
   [], [], [], [], [], [], "", "", 0⟩

/-- C8 witness: two runs over the same concrete document and filesystem. -/
theorem validator_deterministic_witness :
    Validate.runValidator demoDoc [] = Validate.runValidator demoDoc []
    ∧ countersOf (Validate.runValidator demoDoc [])
      = countersOf (Validate.runValidator demoDoc [])
    ∧ Validate.runExit demoDoc [] = Validate.runExit demoDoc [] :=
  validator_deterministic demoDoc demoDoc [] [] rfl rfl
